import Mathlib

/-!
Verification of the max-tokens validation logic in
`src/packages/gen-ai/frontend/src/app/Chatbot/components/chatbotConfiguration/ChatbotConfigurationTableRow.tsx`.

The component keeps three pieces of React state:
  * `maxTokensValue : string` (the raw text of the input field),
  * `maxTokensValidated : 'default' | 'success' | 'warning' | 'error'`,
  * `maxTokensHelperText : string`.
The handler `handleMaxTokensChange` validates the text and, on the empty or
in-range cases, calls the `onMaxTokensChange` callback.  A `React.useEffect`
re-synchronizes `maxTokensValue` from the `maxTokens` prop.

Spec vocabulary mapping: status `Neutral` is `'default'`, `Accepted` is
`'success'`, `Rejected` is `'error'`.  The committed value `absent` is
`Option.none`.  JavaScript numbers are modelled by `Int`; every number the
handler can produce from the claims' inputs is far below 2^53, where JS
numbers are exact integers.
-/

namespace ChatbotRow

/-- The four values of the `maxTokensValidated` React state
(`'default' | 'success' | 'warning' | 'error'`). -/
inductive Validated where
  | default
  | success
  | warning
  | error
deriving DecidableEq, Repr

/-- The three `useState` cells of the component that the validator touches:
`maxTokensValue`, `maxTokensValidated`, `maxTokensHelperText`. -/
structure RowState where
  maxTokensValue : String
  maxTokensValidated : Validated
  maxTokensHelperText : String
deriving DecidableEq, Repr

/-! ### Model of `parseInt(value, 10)`

ECMAScript `parseInt` with radix 10: skip leading whitespace, read an
optional single `+` or `-` sign, then the longest prefix of decimal digits.
If that prefix is empty the result is `NaN` (here `none`); trailing
characters after the digit prefix are ignored. -/

/-- ECMAScript StrWhiteSpaceChar (the code points `parseInt` skips before the
number): TAB, LF, VT, FF, CR, SP, NBSP, LINE SEPARATOR, PARAGRAPH SEPARATOR,
ZWNBSP. -/
def isParseIntSpace (c : Char) : Bool :=
  c.toNat = 9 || c.toNat = 10 || c.toNat = 11 || c.toNat = 12 || c.toNat = 13 ||
  c.toNat = 32 || c.toNat = 160 || c.toNat = 0x2028 || c.toNat = 0x2029 ||
  c.toNat = 0xfeff

/-- The decimal digits `'0'..'9'` (code points 48 to 57), the digit alphabet
of `parseInt` at radix 10. -/
def isAsciiDigit (c : Char) : Bool :=
  48 ≤ c.toNat && c.toNat ≤ 57

/-- The optional sign in front of the digits: `-` negates, `+` is skipped,
anything else leaves the list untouched with positive sign. -/
def splitSign (cs : List Char) : Int × List Char :=
  match cs with
  | [] => (1, [])
  | c :: r => if c = '-' then (-1, r) else if c = '+' then (1, r) else (1, c :: r)

/-- Value of a list of decimal digit characters, most significant first. -/
def digitsVal (cs : List Char) : Nat :=
  cs.foldl (fun acc c => acc * 10 + (c.toNat - 48)) 0

/-- Model of `parseInt(value, 10)`: `none` is JavaScript `NaN`. -/
def parseIntBase10 (value : String) : Option Int :=
  let cs := value.data.dropWhile isParseIntSpace
  let sr := splitSign cs
  let digits := sr.2.takeWhile isAsciiDigit
  if digits = [] then none
  else some (sr.1 * (digitsVal digits : Int))

/-! ### Decimal rendering (model of JavaScript `Number.prototype.toString`)

`natToRevDigitsFuel` is fuel-indexed structural recursion so that the kernel
can evaluate it; `natToRevDigits n` uses `n` itself as fuel, which is always
enough since the recursion divides by 10. -/

/-- Decimal digit character for `d < 10`. -/
def digitChar (d : Nat) : Char :=
  Char.ofNat (48 + d)

/-- Digits of `n` in base 10, least significant first (`[]` for `0`). -/
def natToRevDigitsFuel : Nat → Nat → List Char
  | _, 0 => []
  | 0, _ + 1 => []
  | fuel + 1, n + 1 =>
      digitChar ((n + 1) % 10) :: natToRevDigitsFuel fuel ((n + 1) / 10)

/-- Digits of `n` in base 10, least significant first. -/
def natToRevDigits (n : Nat) : List Char :=
  natToRevDigitsFuel n n

/-- Decimal string of a natural number, as `Number.prototype.toString`
renders it. -/
def natToString (n : Nat) : String :=
  if n = 0 then "0" else String.mk (natToRevDigits n).reverse

/-- Decimal string of an integer, as `Number.prototype.toString` renders an
integral JavaScript number. -/
def intToString (n : Int) : String :=
  if n < 0 then "-" ++ natToString n.natAbs else natToString n.toNat

/-- Model of `maxTokens?.toString() || ''`: the stringified committed value,
or the empty string when the value is absent. -/
def optionIntToString (v : Option Int) : String :=
  match v with
  | none => ""
  | some n => intToString n

/-! ### The component operations -/

/-- Model of `handleMaxTokensChange` (lines 43-83 of the source).  The
handler writes all three state cells on every branch, so the result does not
depend on the previous state; the second component models the at-most-one
call of `onMaxTokensChange` per invocation: `none` means the callback is not
called, `some v` means it is called exactly once with `v` (`some none` is
`onMaxTokensChange(undefined)`). -/
def handleMaxTokensChange (value : String) (_s : RowState) :
    RowState × Option (Option Int) :=
  if value = "" then
    (⟨value, Validated.default, ""⟩, some none)
  else
    match parseIntBase10 value with
    | none => (⟨value, Validated.error, "Must be a valid number"⟩, none)
    | some numValue =>
      if numValue < 128 then
        (⟨value, Validated.error, "Minimum: 128"⟩, none)
      else if numValue > 128000 then
        (⟨value, Validated.error, "Maximum: 128,000"⟩, none)
      else
        (⟨value, Validated.success, ""⟩, some (some numValue))

/-- Model of the three `useState` initializers (lines 33-37):
`useState(maxTokens?.toString() || '')`, `useState('default')`,
`useState('')`. -/
def initialState (maxTokens : Option Int) : RowState :=
  ⟨optionIntToString maxTokens, Validated.default, ""⟩

/-- Model of the `React.useEffect` at lines 38-41 (the spec's `resetFrom`):
it runs `setMaxTokensValue(maxTokens?.toString() || '')` and nothing else,
so only `maxTokensValue` changes and no callback fires (second component
`none`, same convention as `handleMaxTokensChange`). -/
def resetFrom (maxTokens : Option Int) (s : RowState) :
    RowState × Option (Option Int) :=
  ({ s with maxTokensValue := optionIntToString maxTokens }, none)

/-- Effect of one notification slot on the parent-owned committed value:
no call leaves it unchanged, a call replaces it with the argument. -/
def applyNotification (committed : Option Int) (notif : Option (Option Int)) :
    Option Int :=
  match notif with
  | none => committed
  | some v => v

/-- The status and helper text the handler derives from a given raw text:
the pair `(maxTokensValidated, maxTokensHelperText)` as a pure function of
the field text (the handler ignores the previous state). -/
def derivedValidation (value : String) : Validated × String :=
  ((handleMaxTokensChange value ⟨"", Validated.default, ""⟩).1.maxTokensValidated,
   (handleMaxTokensChange value ⟨"", Validated.default, ""⟩).1.maxTokensHelperText)

/-! ### Digit and decimal-string lemmas -/

theorem digitChar_toNat (d : Nat) (h : d < 10) : (digitChar d).toNat = 48 + d := by
  interval_cases d <;> rfl

theorem isAsciiDigit_digitChar (d : Nat) (h : d < 10) :
    isAsciiDigit (digitChar d) = true := by
  simp only [isAsciiDigit, Bool.and_eq_true, decide_eq_true_eq, digitChar_toNat d h]
  omega

theorem isAsciiDigit_iff (c : Char) :
    isAsciiDigit c = true ↔ 48 ≤ c.toNat ∧ c.toNat ≤ 57 := by
  simp [isAsciiDigit]

theorem isAsciiDigit_facts (c : Char) (h : isAsciiDigit c = true) :
    isParseIntSpace c = false ∧ c ≠ '-' ∧ c ≠ '+' := by
  rw [isAsciiDigit_iff] at h
  refine ⟨?_, ?_, ?_⟩
  · simp only [isParseIntSpace, Bool.or_eq_false_iff, decide_eq_false_iff_not]
    omega
  · intro he
    have := congrArg Char.toNat he
    simp only [show ('-').toNat = 45 from rfl] at this
    omega
  · intro he
    have := congrArg Char.toNat he
    simp only [show ('+').toNat = 43 from rfl] at this
    omega

theorem natToRevDigitsFuel_congr (f₁ f₂ n : Nat) (h₁ : n ≤ f₁) (h₂ : n ≤ f₂) :
    natToRevDigitsFuel f₁ n = natToRevDigitsFuel f₂ n := by
  induction n using Nat.strong_induction_on generalizing f₁ f₂ with
  | _ n ih =>
    match n, f₁, f₂ with
    | 0, f₁, f₂ => cases f₁ <;> cases f₂ <;> rfl
    | n + 1, f₁ + 1, f₂ + 1 =>
      show digitChar _ :: natToRevDigitsFuel f₁ ((n + 1) / 10) =
        digitChar _ :: natToRevDigitsFuel f₂ ((n + 1) / 10)
      have hd : (n + 1) / 10 < n + 1 := Nat.div_lt_self (Nat.succ_pos n) (by omega)
      rw [ih ((n + 1) / 10) hd f₁ f₂ (by omega) (by omega)]

theorem natToRevDigits_succ (n : Nat) (h : n ≠ 0) :
    natToRevDigits n = digitChar (n % 10) :: natToRevDigits (n / 10) := by
  obtain ⟨m, rfl⟩ := Nat.exists_eq_succ_of_ne_zero h
  show natToRevDigitsFuel (m + 1) (m + 1) = _
  have hd : (m + 1) / 10 < m + 1 := Nat.div_lt_self (Nat.succ_pos m) (by omega)
  show digitChar _ :: natToRevDigitsFuel m ((m + 1) / 10) =
    digitChar _ :: natToRevDigits ((m + 1) / 10)
  rw [natToRevDigitsFuel_congr m ((m + 1) / 10) ((m + 1) / 10) (by omega) (by omega)]
  rfl

theorem natToRevDigits_ne_nil (n : Nat) (h : n ≠ 0) : natToRevDigits n ≠ [] := by
  rw [natToRevDigits_succ n h]
  exact List.cons_ne_nil _ _

theorem mem_natToRevDigits_isDigit (n : Nat) :
    ∀ c ∈ natToRevDigits n, isAsciiDigit c = true := by
  induction n using Nat.strong_induction_on with
  | _ n ih =>
    by_cases h : n = 0
    · subst h
      intro c hc
      exact absurd hc (List.not_mem_nil c)
    · rw [natToRevDigits_succ n h]
      intro c hc
      rcases List.mem_cons.mp hc with hc | hc
      · subst hc
        exact isAsciiDigit_digitChar _ (Nat.mod_lt _ (by omega))
      · exact ih (n / 10) (Nat.div_lt_self (Nat.pos_of_ne_zero h) (by omega)) c hc

theorem digitsVal_append (cs : List Char) (c : Char) :
    digitsVal (cs ++ [c]) = digitsVal cs * 10 + (c.toNat - 48) := by
  simp [digitsVal, List.foldl_append]

theorem digitsVal_natToRevDigits_reverse (n : Nat) :
    digitsVal (natToRevDigits n).reverse = n := by
  induction n using Nat.strong_induction_on with
  | _ n ih =>
    by_cases h : n = 0
    · subst h; rfl
    · rw [natToRevDigits_succ n h, List.reverse_cons, digitsVal_append,
        ih (n / 10) (Nat.div_lt_self (Nat.pos_of_ne_zero h) (by omega)),
        digitChar_toNat _ (Nat.mod_lt _ (by omega))]
      omega

theorem natToString_data (n : Nat) (h : n ≠ 0) :
    (natToString n).data = (natToRevDigits n).reverse := by
  simp [natToString, h]

theorem natToString_ne_empty (n : Nat) : natToString n ≠ "" := by
  by_cases h : n = 0
  · subst h; decide
  · intro he
    have hd := congrArg String.data he
    rw [natToString_data n h] at hd
    exact natToRevDigits_ne_nil n h (List.reverse_eq_nil_iff.mp hd)

/-! ### `parseIntBase10` on decimal strings -/

theorem takeWhile_of_all {p : Char → Bool} :
    ∀ l : List Char, (∀ c ∈ l, p c = true) → l.takeWhile p = l := by
  intro l
  induction l with
  | nil => intro _; rfl
  | cons c t ih =>
    intro h
    rw [List.takeWhile_cons, h c (List.mem_cons_self c t), if_pos rfl,
      ih fun x hx => h x (List.mem_cons_of_mem c hx)]

theorem dropWhile_of_head_false {p : Char → Bool} (c : Char) (t : List Char)
    (h : p c = false) : (c :: t).dropWhile p = c :: t := by
  rw [List.dropWhile_cons, h]
  rfl

theorem splitSign_of_head_digit (c : Char) (t : List Char)
    (h : isAsciiDigit c = true) : splitSign (c :: t) = (1, c :: t) := by
  obtain ⟨-, h₂, h₃⟩ := isAsciiDigit_facts c h
  simp [splitSign, h₂, h₃]

theorem parseIntBase10_of_all_digits (cs : List Char) (hne : cs ≠ [])
    (hall : ∀ c ∈ cs, isAsciiDigit c = true) :
    parseIntBase10 (String.mk cs) = some ((digitsVal cs : Nat) : Int) := by
  obtain ⟨c, t, rfl⟩ := List.exists_cons_of_ne_nil hne
  have hc : isAsciiDigit c = true := hall c (List.mem_cons_self c t)
  have h1 : (String.mk (c :: t)).data = c :: t := rfl
  simp only [parseIntBase10, h1,
    dropWhile_of_head_false c t (isAsciiDigit_facts c hc).1,
    splitSign_of_head_digit c t hc,
    takeWhile_of_all (c :: t) hall]
  rw [if_neg (List.cons_ne_nil c t), one_mul]

theorem parseIntBase10_of_neg_digits (cs : List Char) (hne : cs ≠ [])
    (hall : ∀ c ∈ cs, isAsciiDigit c = true) :
    parseIntBase10 (String.mk ('-' :: cs)) = some (-((digitsVal cs : Nat) : Int)) := by
  have h1 : (String.mk ('-' :: cs)).data = '-' :: cs := rfl
  have h2 : splitSign ('-' :: cs) = (-1, cs) := by simp [splitSign]
  simp only [parseIntBase10, h1,
    @dropWhile_of_head_false isParseIntSpace '-' cs (by decide), h2,
    takeWhile_of_all cs hall]
  rw [if_neg hne, neg_one_mul]

theorem parseIntBase10_natToString (n : Nat) :
    parseIntBase10 (natToString n) = some ((n : Nat) : Int) := by
  by_cases h : n = 0
  · subst h; rfl
  · have hs : natToString n = String.mk (natToRevDigits n).reverse := by
      simp [natToString, h]
    rw [hs, parseIntBase10_of_all_digits (natToRevDigits n).reverse
      (by
        intro he
        exact natToRevDigits_ne_nil n h (List.reverse_eq_nil_iff.mp he))
      (by
        intro c hc
        exact mem_natToRevDigits_isDigit n c (List.mem_reverse.mp hc)),
      digitsVal_natToRevDigits_reverse n]

theorem negString_eq (m : Nat) (h : m ≠ 0) :
    "-" ++ natToString m = String.mk ('-' :: (natToRevDigits m).reverse) := by
  have hs : natToString m = String.mk (natToRevDigits m).reverse := by
    simp [natToString, h]
  rw [hs]
  rfl

theorem parseIntBase10_negNatToString (m : Nat) (h : m ≠ 0) :
    parseIntBase10 ("-" ++ natToString m) = some (-((m : Nat) : Int)) := by
  rw [negString_eq m h, parseIntBase10_of_neg_digits (natToRevDigits m).reverse
    (by
      intro he
      exact natToRevDigits_ne_nil m h (List.reverse_eq_nil_iff.mp he))
    (by
      intro c hc
      exact mem_natToRevDigits_isDigit m c (List.mem_reverse.mp hc)),
    digitsVal_natToRevDigits_reverse m]

theorem negString_ne_empty (m : Nat) : "-" ++ natToString m ≠ "" := by
  intro he
  have hd := congrArg String.data he
  simp [String.data_append] at hd

/-! ### Branch lemmas for `handleMaxTokensChange` -/

theorem handle_empty (s : RowState) :
    handleMaxTokensChange "" s = (⟨"", Validated.default, ""⟩, some none) := rfl

theorem handle_nan (value : String) (s : RowState) (h1 : value ≠ "")
    (h2 : parseIntBase10 value = none) :
    handleMaxTokensChange value s =
      (⟨value, Validated.error, "Must be a valid number"⟩, none) := by
  simp [handleMaxTokensChange, h1, h2]

theorem handle_low (value : String) (s : RowState) (n : Int) (h1 : value ≠ "")
    (h2 : parseIntBase10 value = some n) (h3 : n < 128) :
    handleMaxTokensChange value s =
      (⟨value, Validated.error, "Minimum: 128"⟩, none) := by
  simp [handleMaxTokensChange, h1, h2, h3]

theorem handle_high (value : String) (s : RowState) (n : Int) (h1 : value ≠ "")
    (h2 : parseIntBase10 value = some n) (h3 : ¬n < 128) (h4 : 128000 < n) :
    handleMaxTokensChange value s =
      (⟨value, Validated.error, "Maximum: 128,000"⟩, none) := by
  simp [handleMaxTokensChange, h1, h2, h3, h4]

theorem handle_valid (value : String) (s : RowState) (n : Int) (h1 : value ≠ "")
    (h2 : parseIntBase10 value = some n) (h3 : ¬n < 128) (h4 : ¬128000 < n) :
    handleMaxTokensChange value s =
      (⟨value, Validated.success, ""⟩, some (some n)) := by
  simp [handleMaxTokensChange, h1, h2, h3, h4]

/-! ### Claim theorems -/

/-- C1: for every integer `n` with `128 ≤ n ≤ 128000`, calling the change
handler with the decimal string of `n` sets `maxTokensValidated` to
`'success'` (Accepted), sets the helper text to the empty string, and calls
`onMaxTokensChange` exactly once with exactly the value `n`. -/
theorem c1_in_range_accepts (n : Nat) (s : RowState) (h1 : 128 ≤ n)
    (h2 : n ≤ 128000) :
    handleMaxTokensChange (natToString n) s =
      (⟨natToString n, Validated.success, ""⟩, some (some ((n : Nat) : Int))) := by
  refine handle_valid _ s _ (natToString_ne_empty n)
    (parseIntBase10_natToString n) ?_ ?_ <;> omega

/-- Witness for C1 at `n = 4096`. -/
theorem c1_in_range_accepts_witness :
    (128 ≤ 4096 ∧ 4096 ≤ 128000) ∧
      handleMaxTokensChange (natToString 4096) (initialState none) =
        (⟨natToString 4096, Validated.success, ""⟩,
          some (some ((4096 : Nat) : Int))) :=
  ⟨⟨by omega, by omega⟩,
    c1_in_range_accepts 4096 (initialState none) (by omega) (by omega)⟩

/-- C2: the empty string sets `maxTokensValidated` to `'default'` (Neutral),
clears the helper text, and calls `onMaxTokensChange(undefined)`; and the
empty string is the only input whose invocation commits the absent value. -/
theorem c2_empty_commits_absent (value : String) (s : RowState) :
    handleMaxTokensChange "" s = (⟨"", Validated.default, ""⟩, some none) ∧
    ((handleMaxTokensChange value s).2 = some none → value = "") := by
  refine ⟨handle_empty s, ?_⟩
  intro h
  by_cases hv : value = ""
  · exact hv
  · exfalso
    rcases hp : parseIntBase10 value with _ | n
    · simp [handle_nan value s hv hp] at h
    · by_cases h3 : n < 128
      · simp [handle_low value s n hv hp h3] at h
      · by_cases h4 : 128000 < n
        · simp [handle_high value s n hv hp h3 h4] at h
        · simp [handle_valid value s n hv hp h3 h4] at h

/-- Witness for C2 at the empty input. -/
theorem c2_empty_commits_absent_witness :
    handleMaxTokensChange "" (initialState none) =
      (⟨"", Validated.default, ""⟩, some none) ∧ "" = "" :=
  ⟨(c2_empty_commits_absent "" (initialState none)).1,
    (c2_empty_commits_absent "" (initialState none)).2 rfl⟩

/-- C3: every non-empty input whose `parseInt(value, 10)` is `NaN` sets
`maxTokensValidated` to `'error'` (Rejected) with helper text
"Must be a valid number", does not call `onMaxTokensChange`, and leaves the
committed value unchanged.  (Exception freedom holds by construction: the
model of the handler is a total function.) -/
theorem c3_nan_rejected (value : String) (s : RowState) (committed : Option Int)
    (h1 : value ≠ "") (h2 : parseIntBase10 value = none) :
    handleMaxTokensChange value s =
      (⟨value, Validated.error, "Must be a valid number"⟩, none) ∧
    applyNotification committed (handleMaxTokensChange value s).2 = committed := by
  have h := handle_nan value s h1 h2
  exact ⟨h, by rw [h]; rfl⟩

/-- Witness for C3 at input "abc" with committed value 4096. -/
theorem c3_nan_rejected_witness :
    ("abc" ≠ "" ∧ parseIntBase10 "abc" = none) ∧
      (handleMaxTokensChange "abc" (initialState none) =
        (⟨"abc", Validated.error, "Must be a valid number"⟩, none) ∧
       applyNotification (some 4096)
         (handleMaxTokensChange "abc" (initialState none)).2 = some 4096) :=
  ⟨⟨by decide, rfl⟩,
    c3_nan_rejected "abc" (initialState none) (some 4096) (by decide) rfl⟩

/-- C4: a non-empty input parsing to `n < 128` is rejected with
"Minimum: 128" and no callback; one parsing to `n > 128000` is rejected with
"Maximum: 128,000" and no callback.  (The two branches are mutually
exclusive, so the below-minimum-first evaluation order is exactly captured
by the two conditional conclusions.) -/
theorem c4_out_of_range_rejected (value : String) (s : RowState) (n : Int)
    (h1 : value ≠ "") (h2 : parseIntBase10 value = some n) :
    (n < 128 → handleMaxTokensChange value s =
      (⟨value, Validated.error, "Minimum: 128"⟩, none)) ∧
    (128000 < n → handleMaxTokensChange value s =
      (⟨value, Validated.error, "Maximum: 128,000"⟩, none)) := by
  constructor
  · intro h3
    exact handle_low value s n h1 h2 h3
  · intro h4
    exact handle_high value s n h1 h2 (by omega) h4

/-- Witness for C4 at inputs "64" (below minimum) and "200000" (above
maximum). -/
theorem c4_out_of_range_rejected_witness :
    (("64" ≠ "" ∧ parseIntBase10 "64" = some 64 ∧ (64 : Int) < 128) ∧
      handleMaxTokensChange "64" (initialState none) =
        (⟨"64", Validated.error, "Minimum: 128"⟩, none)) ∧
    (("200000" ≠ "" ∧ parseIntBase10 "200000" = some 200000 ∧
        (128000 : Int) < 200000) ∧
      handleMaxTokensChange "200000" (initialState none) =
        (⟨"200000", Validated.error, "Maximum: 128,000"⟩, none)) :=
  ⟨⟨⟨by decide, rfl, by omega⟩,
    (c4_out_of_range_rejected "64" (initialState none) 64 (by decide) rfl).1
      (by omega)⟩,
   ⟨⟨by decide, rfl, by omega⟩,
    (c4_out_of_range_rejected "200000" (initialState none) 200000 (by decide)
      rfl).2 (by omega)⟩⟩

/-- C5: every invocation of the change handler writes the input string to
`maxTokensValue` unconditionally (also on rejection), and the callback fires
(at most once, the notification slot holds at most one call) exactly in the
empty-input case and the accepted-in-range case. -/
theorem c5_raw_echo_and_gated_notification (value : String) (s : RowState) :
    (handleMaxTokensChange value s).1.maxTokensValue = value ∧
    ((handleMaxTokensChange value s).2 ≠ none ↔
      value = "" ∨ ∃ n : Int, parseIntBase10 value = some n ∧
        128 ≤ n ∧ n ≤ 128000) := by
  by_cases hv : value = ""
  · subst hv
    exact ⟨rfl, by simp [handle_empty]⟩
  · rcases hp : parseIntBase10 value with _ | n
    · rw [handle_nan value s hv hp]
      refine ⟨rfl, ?_⟩
      simp [hv, hp]
    · by_cases h3 : n < 128
      · rw [handle_low value s n hv hp h3]
        refine ⟨rfl, ?_⟩
        simp only [ne_eq, not_true_eq_false, false_iff, hv, hp, false_or,
          not_exists]
        rintro m ⟨hm, hm1, hm2⟩
        rw [Option.some_inj] at hm
        omega
      · by_cases h4 : 128000 < n
        · rw [handle_high value s n hv hp h3 h4]
          refine ⟨rfl, ?_⟩
          simp only [ne_eq, not_true_eq_false, false_iff, hv, hp, false_or,
            not_exists]
          rintro m ⟨hm, hm1, hm2⟩
          rw [Option.some_inj] at hm
          omega
        · rw [handle_valid value s n hv hp h3 h4]
          refine ⟨rfl, ?_⟩
          simp only [ne_eq, reduceCtorEq, not_false_eq_true, true_iff, hp]
          exact Or.inr ⟨n, rfl, by omega, by omega⟩

/-- Witness for C5 at input "abc". -/
theorem c5_raw_echo_and_gated_notification_witness :
    (handleMaxTokensChange "abc" (initialState none)).1.maxTokensValue = "abc" ∧
    ((handleMaxTokensChange "abc" (initialState none)).2 ≠ none ↔
      "abc" = "" ∨ ∃ n : Int, parseIntBase10 "abc" = some n ∧
        128 ≤ n ∧ n ≤ 128000) :=
  c5_raw_echo_and_gated_notification "abc" (initialState none)

/-- C6 counterexample: after `onChange("64")` leaves the Rejected status with
message "Minimum: 128", re-synchronizing from an external committed value of
8192 changes `maxTokensValue` to "8192" but keeps the stale status and
message, which no longer correspond to the new raw text. -/
theorem c6_counterexample :
    ((resetFrom (some 8192)
        (handleMaxTokensChange "64" (initialState none)).1).1.maxTokensValidated,
     (resetFrom (some 8192)
        (handleMaxTokensChange "64" (initialState none)).1).1.maxTokensHelperText) ≠
      derivedValidation
        (resetFrom (some 8192)
          (handleMaxTokensChange "64" (initialState none)).1).1.maxTokensValue := by
  decide

/-- C6 (amended): after every change-handler invocation, status and message
equal the derived pure function of the new raw text; the re-synchronization
effect updates only `maxTokensValue` and leaves status and message unchanged,
so after a re-synchronization they may be stale relative to the new raw
text. -/
theorem c6_amended_pure_after_change_stale_after_reset (value : String)
    (v : Option Int) (s : RowState) :
    ((handleMaxTokensChange value s).1.maxTokensValidated,
     (handleMaxTokensChange value s).1.maxTokensHelperText) =
      derivedValidation value ∧
    (resetFrom v s).1.maxTokensValidated = s.maxTokensValidated ∧
    (resetFrom v s).1.maxTokensHelperText = s.maxTokensHelperText :=
  ⟨rfl, rfl, rfl⟩

/-- C7 counterexample: `resetFrom(8192)` from the Rejected state reached by
`onChange("64")` does not recompute the status as Accepted (`'success'`); the
stale `'error'` status persists. -/
theorem c7_counterexample :
    (resetFrom (some 8192)
      (handleMaxTokensChange "64" (initialState none)).1).1.maxTokensValidated ≠
      Validated.success := by
  decide

/-- C7 (amended): `resetFrom(externalValue)` overwrites `maxTokensValue` with
the stringified external value (empty string when absent) and emits no
notification; status and message are left unchanged, not recomputed — in
particular `resetFrom(8192)` yields raw text "8192" and no notification. -/
theorem c7_amended_reset_overwrites_without_revalidation (v : Option Int)
    (s : RowState) :
    resetFrom v s = ({ s with maxTokensValue := optionIntToString v }, none) ∧
    (resetFrom (some 8192) s).1.maxTokensValue = "8192" ∧
    (resetFrom (some 8192) s).2 = none :=
  ⟨rfl, rfl, rfl⟩

/-- C8 counterexample: constructing with committed value 4096 yields raw text
"4096" but initial status `'default'` (Neutral), not `'success'` (Accepted)
as the claim states. -/
theorem c8_counterexample :
    (initialState (some 4096)).maxTokensValue = "4096" ∧
    (initialState (some 4096)).maxTokensValidated ≠ Validated.success := by
  decide

/-- C8 (amended): the initial state has `maxTokensValue` equal to the
stringified committed value (empty string when absent) and status `'default'`
(Neutral) in every case, including construction with a valid in-range
value. -/
theorem c8_amended_initial_always_neutral (v : Option Int) :
    initialState v = ⟨optionIntToString v, Validated.default, ""⟩ ∧
    (initialState (some 4096)).maxTokensValue = "4096" ∧
    (initialState none).maxTokensValue = "" :=
  ⟨rfl, by decide, rfl⟩

/-- C9: the change handler is idempotent on state: invoking it twice in a row
with the same text from any state gives identical raw text, status, message
and the identical notification on each call (no deduplication; the handler's
result does not depend on the previous state at all). -/
theorem c9_idempotent (t : String) (s : RowState) :
    handleMaxTokensChange t (handleMaxTokensChange t s).1 =
      handleMaxTokensChange t s := rfl

/-- C10: a string denoting a negative integer parses (via the sign-aware
leading-digit parse) to a negative value rather than `NaN`, so the handler
rejects it with "Minimum: 128" — not "Must be a valid number" — and does not
call the callback. -/
theorem c10_negative_rejected_minimum (m : Nat) (s : RowState) (h : 0 < m) :
    parseIntBase10 ("-" ++ natToString m) = some (-((m : Nat) : Int)) ∧
    handleMaxTokensChange ("-" ++ natToString m) s =
      (⟨"-" ++ natToString m, Validated.error, "Minimum: 128"⟩, none) := by
  have hp := parseIntBase10_negNatToString m (by omega)
  exact ⟨hp, handle_low _ s _ (negString_ne_empty m) hp (by omega)⟩

/-- Witness for C10 at "-5". -/
theorem c10_negative_rejected_minimum_witness :
    (0 < 5 ∧ "-" ++ natToString 5 = "-5") ∧
    (parseIntBase10 ("-" ++ natToString 5) = some (-((5 : Nat) : Int)) ∧
     handleMaxTokensChange ("-" ++ natToString 5) (initialState none) =
       (⟨"-" ++ natToString 5, Validated.error, "Minimum: 128"⟩, none)) :=
  ⟨⟨by omega, rfl⟩, c10_negative_rejected_minimum 5 (initialState none) (by omega)⟩

end ChatbotRow
